import Mathlib

/-!
Verification of the position-evaluation heuristics in
`src/projects/proj2/evaluation.py`: a soccer-variant evaluator (`soccer`)
and a connect-four evaluator (`connect_four`).

Game states are owned by an external module; we embed exactly the read
accessors the evaluators consume:
  - `SoccerState`: `goalPos` (per player), `ballPos`, `possession`;
  - `Connect4State`: `lines`, each line a list of cells, a cell being
    `some id` (a piece of player `id`) or `none` (empty).
Python floats are modelled as real numbers, Python ints as `ℤ`/`ℕ`.
The `isinstance` variant check is modelled by a sum type `GameState` and
an `Except` result: the `ValueError` the Python code raises becomes
`EvalError.variantMismatch`.
-/

structure SoccerState where
  goalPos : ℕ → ℝ × ℝ
  ballPos : ℝ × ℝ
  possession : Option ℕ

structure Connect4State where
  lines : List (List (Option ℕ))

inductive GameState
  | soccerState : SoccerState → GameState
  | connect4State : Connect4State → GameState

inductive EvalError
  | variantMismatch

/-- Straight-line Euclidean distance, as computed inline in the source
(`math.sqrt((bx-gx)**2 + (by-gy)**2)`). -/
noncomputable def euclideanDistance (a b : ℝ × ℝ) : ℝ :=
  Real.sqrt ((a.1 - b.1) ^ 2 + (a.2 - b.2) ^ 2)

/-- Body of the Python `soccer` function after the variant check
(lines 21-44 of `evaluation.py`), with the same constants and the same
sequence of accessor reads; the player's own goal is fetched but unused,
exactly as in the source. -/
noncomputable def soccerScore (state : SoccerState) (player_id : ℕ) : ℝ :=
  let goal_reward : ℝ := 1000
  let possession_bonus : ℝ := 50
  let distance_penalty : ℝ := 5
  let _player_goal := state.goalPos player_id
  let opponent_goal := state.goalPos (1 - player_id)
  let ball_position := state.ballPos
  let distance_to_goal := Real.sqrt ((ball_position.1 - opponent_goal.1) ^ 2 +
    (ball_position.2 - opponent_goal.2) ^ 2)
  let score : ℝ :=
    if state.possession = some player_id then possession_bonus else -possession_bonus
  score + (goal_reward - distance_penalty * distance_to_goal)

/-- The Python `soccer` evaluator: variant check first (line 18), then the
heuristic. A non-soccer state yields the `ValueError`, modelled as
`Except.error EvalError.variantMismatch`. -/
noncomputable def soccer (state : GameState) (player_id : ℕ) : Except EvalError ℝ :=
  match state with
  | GameState.soccerState s => Except.ok (soccerScore s player_id)
  | GameState.connect4State _ => Except.error EvalError.variantMismatch

/-- The nested `score_alignment` helper of the Python `connect_four`
function (lines 61-80 of `evaluation.py`), branch for branch. -/
def score_alignment (count opponent_count : ℕ) : ℤ :=
  if count = 4 then 1000
  else if count = 3 ∧ opponent_count = 0 then 50
  else if count = 2 ∧ opponent_count = 0 then 10
  else if count = 3 ∧ opponent_count = 1 then 5
  else if count = 2 ∧ opponent_count = 1 then 1
  else 0

/-- The loop of the Python `connect_four` function (lines 82-96),
generalised over the per-line scoring function so that the call pattern
of `score_alignment` can be analysed; the source instantiates `f` with
`score_alignment` (see `connectFourScore`). -/
def connectFourScoreWith (f : ℕ → ℕ → ℤ) (state : Connect4State) (player_id : ℕ) : ℤ :=
  let opponent_id := 1 - player_id
  state.lines.foldl
    (fun score line =>
      let player_count := line.count (some player_id)
      let opponent_count := line.count (some opponent_id)
      if 0 < player_count ∧ opponent_count = 0 then
        score + f player_count opponent_count
      else if 0 < opponent_count ∧ player_count = 0 then
        score - f opponent_count player_count
      else score)
    0

/-- Body of the Python `connect_four` function after the variant check:
the loop over `state.get_lines()` accumulating `score_alignment` values,
adding player-only lines and subtracting opponent-only lines. -/
def connectFourScore (state : Connect4State) (player_id : ℕ) : ℤ :=
  let opponent_id := 1 - player_id
  state.lines.foldl
    (fun score line =>
      let player_count := line.count (some player_id)
      let opponent_count := line.count (some opponent_id)
      if 0 < player_count ∧ opponent_count = 0 then
        score + score_alignment player_count opponent_count
      else if 0 < opponent_count ∧ player_count = 0 then
        score - score_alignment opponent_count player_count
      else score)
    0

/-- The Python `connect_four` evaluator: variant check first (line 58),
then the line scan. -/
def connect_four (state : GameState) (player_id : ℕ) : Except EvalError ℤ :=
  match state with
  | GameState.connect4State s => Except.ok (connectFourScore s player_id)
  | GameState.soccerState _ => Except.error EvalError.variantMismatch

/-- Contribution of a single line to the connect-four total, for a given
per-line scoring function: the loop body of `connect_four` rephrased as a
pure per-line value. -/
def lineContribWith (f : ℕ → ℕ → ℤ) (player_id : ℕ) (line : List (Option ℕ)) : ℤ :=
  let player_count := line.count (some player_id)
  let opponent_count := line.count (some (1 - player_id))
  if 0 < player_count ∧ opponent_count = 0 then f player_count opponent_count
  else if 0 < opponent_count ∧ player_count = 0 then -f opponent_count player_count
  else 0

/-- Contribution of a single line under the source's `score_alignment`. -/
def lineContrib (player_id : ℕ) (line : List (Option ℕ)) : ℤ :=
  lineContribWith score_alignment player_id line

lemma foldl_body_general (f : ℕ → ℕ → ℤ) (p : ℕ) :
    ∀ (ls : List (List (Option ℕ))) (a : ℤ),
      ls.foldl
        (fun score line =>
          let player_count := line.count (some p)
          let opponent_count := line.count (some (1 - p))
          if 0 < player_count ∧ opponent_count = 0 then
            score + f player_count opponent_count
          else if 0 < opponent_count ∧ player_count = 0 then
            score - f opponent_count player_count
          else score)
        a
      = a + (ls.map (lineContribWith f p)).sum := by
  intro ls
  induction ls with
  | nil => intro a; simp
  | cons x xs ih =>
      intro a
      rw [List.foldl_cons, ih, List.map_cons, List.sum_cons]
      simp only [lineContribWith]
      split_ifs <;> ring

lemma connectFourScoreWith_eq_sum (f : ℕ → ℕ → ℤ) (p : ℕ)
    (ls : List (List (Option ℕ))) :
    connectFourScoreWith f ⟨ls⟩ p = (ls.map (lineContribWith f p)).sum := by
  have h := foldl_body_general f p ls 0
  rw [zero_add] at h
  exact h

lemma connectFourScore_eq_sum (ls : List (List (Option ℕ))) (p : ℕ) :
    connectFourScore ⟨ls⟩ p = (ls.map (lineContrib p)).sum :=
  connectFourScoreWith_eq_sum score_alignment p ls

lemma connectFourScore_eq_with (s : Connect4State) (p : ℕ) :
    connectFourScore s p = connectFourScoreWith score_alignment s p := rfl

lemma lineContrib_of_all_none (p : ℕ) (line : List (Option ℕ))
    (h : ∀ c ∈ line, c = none) : lineContrib p line = 0 := by
  have h1 : line.count (some p) = 0 := by
    rw [List.count_eq_zero]
    intro hm
    exact Option.noConfusion (h _ hm)
  have h2 : line.count (some (1 - p)) = 0 := by
    rw [List.count_eq_zero]
    intro hm
    exact Option.noConfusion (h _ hm)
  simp [lineContrib, lineContribWith, h1, h2]

lemma soccerScore_eq (s : SoccerState) (p : ℕ) :
    soccerScore s p =
      (if s.possession = some p then (50 : ℝ) else -50) +
        (1000 - 5 * euclideanDistance s.ballPos (s.goalPos (1 - p))) := rfl

lemma euclideanDistance_five : euclideanDistance ((5 : ℝ), (5 : ℝ)) ((5 : ℝ), (0 : ℝ)) = 5 := by
  simp only [euclideanDistance]
  have h : ((5 : ℝ) - 5) ^ 2 + ((5 : ℝ) - 0) ^ 2 = 5 ^ 2 := by norm_num
  rw [h, Real.sqrt_sq (by norm_num : (0 : ℝ) ≤ 5)]

/-- Concrete soccer state of scenario A: ball at (5,5), own goal of
player 0 at (5,10), goal of player 1 at (5,0), possession held by 0. -/
noncomputable def scenarioAState : SoccerState :=
  { goalPos := fun q => if q = 0 then ((5 : ℝ), (10 : ℝ)) else ((5 : ℝ), (0 : ℝ))
    ballPos := ((5 : ℝ), (5 : ℝ))
    possession := some 0 }

/-- Soccer state identical to scenario A except possession is held by
player 1. -/
noncomputable def scenarioAStateOppPossession : SoccerState :=
  { goalPos := fun q => if q = 0 then ((5 : ℝ), (10 : ℝ)) else ((5 : ℝ), (0 : ℝ))
    ballPos := ((5 : ℝ), (5 : ℝ))
    possession := some 1 }

/-- Soccer state identical to scenario A except the ball is at (5,4),
closer to player 1's goal at (5,0). -/
noncomputable def scenarioACloserBall : SoccerState :=
  { goalPos := fun q => if q = 0 then ((5 : ℝ), (10 : ℝ)) else ((5 : ℝ), (0 : ℝ))
    ballPos := ((5 : ℝ), (4 : ℝ))
    possession := some 0 }

/-- Soccer state identical to scenario A except player 0's own goal has
been moved to (9,9). -/
noncomputable def scenarioAMovedOwnGoal : SoccerState :=
  { goalPos := fun q => if q = 0 then ((9 : ℝ), (9 : ℝ)) else ((5 : ℝ), (0 : ℝ))
    ballPos := ((5 : ℝ), (5 : ℝ))
    possession := some 0 }

/-- C1: for every soccer state and player, `soccer` returns
(50 if possession is held by the player else -50) + 1000 - 5 * the
Euclidean distance from the ball to the opponent's goal; and in the
concrete scenario with ball at (5,5), opponent goal at (5,0) and
possession held by the player, the result is 1025. -/
theorem soccer_formula_and_scenarioA :
    (∀ (s : SoccerState) (p : ℕ),
        soccer (GameState.soccerState s) p =
          Except.ok ((if s.possession = some p then (50 : ℝ) else -50) + 1000 -
            5 * euclideanDistance s.ballPos (s.goalPos (1 - p)))) ∧
    (∀ (s : SoccerState) (p : ℕ), p ≤ 1 → s.ballPos = ((5 : ℝ), (5 : ℝ)) →
        s.goalPos (1 - p) = ((5 : ℝ), (0 : ℝ)) → s.possession = some p →
        soccer (GameState.soccerState s) p = Except.ok 1025) := by
  constructor
  · intro s p
    simp only [soccer]
    congr 1
    rw [soccerScore_eq]
    ring
  · intro s p _ hball hgoal hposs
    simp only [soccer]
    congr 1
    rw [soccerScore_eq, hposs, if_pos rfl, hball, hgoal, euclideanDistance_five]
    norm_num

/-- Witness for C1 at scenario A with player 0. -/
theorem soccer_formula_and_scenarioA_witness :
    soccer (GameState.soccerState scenarioAState) 0 = Except.ok 1025 :=
  soccer_formula_and_scenarioA.2 scenarioAState 0 (by decide) rfl rfl rfl

/-- C5: the soccer evaluator rejects every connect-four state and the
connect-four evaluator rejects every soccer state, with the variant
mismatch error, for every player id; the error is the same whatever the
foreign state contains, so no accessor of it is consulted. -/
theorem variant_rejection :
    ∀ (cs : Connect4State) (ss : SoccerState) (p : ℕ),
      soccer (GameState.connect4State cs) p = Except.error EvalError.variantMismatch ∧
      connect_four (GameState.soccerState ss) p = Except.error EvalError.variantMismatch :=
  fun _ _ _ => ⟨rfl, rfl⟩

/-- C6: two soccer states with the same ball and goal geometry, one with
possession held by `p` and one with possession held by `1-p`, differ in
score by exactly 100. -/
theorem possession_symmetry :
    ∀ (p : ℕ) (s1 s2 : SoccerState), p ≤ 1 →
      s1.ballPos = s2.ballPos → (∀ q, s1.goalPos q = s2.goalPos q) →
      s1.possession = some p → s2.possession = some (1 - p) →
      soccerScore s1 p - soccerScore s2 p = 100 := by
  intro p s1 s2 hp hball hgoal h1 h2
  have hne : ¬(some (1 - p) = some p) := by
    simp only [Option.some.injEq]
    omega
  rw [soccerScore_eq, soccerScore_eq, h1, h2, hball, hgoal (1 - p),
    if_pos rfl, if_neg hne]
  ring

/-- Witness for C6: scenario A against the same geometry with possession
swapped to player 1, from player 0's perspective. -/
theorem possession_symmetry_witness :
    soccerScore scenarioAState 0 - soccerScore scenarioAStateOppPossession 0 = 100 :=
  possession_symmetry 0 scenarioAState scenarioAStateOppPossession (by decide)
    rfl (fun _ => rfl) rfl rfl

/-- C7: with goals and possession fixed, a strictly smaller Euclidean
distance from the ball to the opponent's goal gives a strictly larger
soccer score. -/
theorem distance_monotonicity :
    ∀ (p : ℕ) (s1 s2 : SoccerState),
      (∀ q, s1.goalPos q = s2.goalPos q) → s1.possession = s2.possession →
      euclideanDistance s1.ballPos (s1.goalPos (1 - p)) <
        euclideanDistance s2.ballPos (s2.goalPos (1 - p)) →
      soccerScore s1 p > soccerScore s2 p := by
  intro p s1 s2 hgoal hposs hd
  rw [hgoal (1 - p)] at hd
  rw [soccerScore_eq, soccerScore_eq, hposs, hgoal (1 - p)]
  split_ifs <;> linarith

/-- Witness for C7: moving the ball from (5,5) to (5,4) with the opponent
goal at (5,0) strictly increases the score for player 0. -/
theorem distance_monotonicity_witness :
    soccerScore scenarioACloserBall 0 > soccerScore scenarioAState 0 := by
  apply distance_monotonicity 0 scenarioACloserBall scenarioAState (fun _ => rfl) rfl
  show euclideanDistance ((5 : ℝ), (4 : ℝ)) ((5 : ℝ), (0 : ℝ)) <
    euclideanDistance ((5 : ℝ), (5 : ℝ)) ((5 : ℝ), (0 : ℝ))
  simp only [euclideanDistance]
  have h1 : ((5 : ℝ) - 5) ^ 2 + ((4 : ℝ) - 0) ^ 2 = 16 := by norm_num
  have h2 : ((5 : ℝ) - 5) ^ 2 + ((5 : ℝ) - 0) ^ 2 = 25 := by norm_num
  rw [h1, h2]
  exact Real.sqrt_lt_sqrt (by norm_num) (by norm_num)

/-- C8: the soccer score does not depend on the perspective player's own
goal position: states agreeing on ball, possession and the opponent's
goal get the same score however their remaining goal data differ. -/
theorem own_goal_independence :
    ∀ (p : ℕ) (s1 s2 : SoccerState),
      s1.ballPos = s2.ballPos → s1.possession = s2.possession →
      s1.goalPos (1 - p) = s2.goalPos (1 - p) →
      soccerScore s1 p = soccerScore s2 p := by
  intro p s1 s2 hball hposs hgoal
  rw [soccerScore_eq, soccerScore_eq, hball, hposs, hgoal]

/-- Witness for C8: moving player 0's own goal from (5,10) to (9,9)
leaves player 0's score unchanged. -/
theorem own_goal_independence_witness :
    soccerScore scenarioAState 0 = soccerScore scenarioAMovedOwnGoal 0 :=
  own_goal_independence 0 scenarioAState scenarioAMovedOwnGoal rfl rfl rfl

/-- C2: the per-line scoring table of `score_alignment`: 1000 for four in
a row whatever the blocker count, 50 / 10 for an unblocked three / two,
5 / 1 for a three / two with one blocker, and 0 in every other case. -/
theorem score_alignment_table :
    ∀ (count opponent_count : ℕ),
      (count = 4 → score_alignment count opponent_count = 1000) ∧
      (count = 3 → opponent_count = 0 → score_alignment count opponent_count = 50) ∧
      (count = 2 → opponent_count = 0 → score_alignment count opponent_count = 10) ∧
      (count = 3 → opponent_count = 1 → score_alignment count opponent_count = 5) ∧
      (count = 2 → opponent_count = 1 → score_alignment count opponent_count = 1) ∧
      (count ≠ 4 → ¬(count = 3 ∧ opponent_count = 0) → ¬(count = 2 ∧ opponent_count = 0) →
        ¬(count = 3 ∧ opponent_count = 1) → ¬(count = 2 ∧ opponent_count = 1) →
        score_alignment count opponent_count = 0) := by
  intro count opponent_count
  refine ⟨?_, ?_, ?_, ?_, ?_, ?_⟩ <;> intros <;> subst_vars <;>
    simp only [score_alignment] <;> split_ifs <;> first | rfl | tauto

/-- Witness for C2: a four-in-a-row with three blockers still scores 1000. -/
theorem score_alignment_table_witness : score_alignment 4 3 = 1000 :=
  (score_alignment_table 4 3).1 rfl

/-- C3: a state whose lines are one complete four-in-a-row for the
opponent and otherwise only empty lines evaluates to -1000. -/
theorem opponent_four_in_a_row :
    ∀ (p : ℕ) (pre post : List (List (Option ℕ))), p ≤ 1 →
      (∀ l ∈ pre ++ post, ∀ c ∈ l, c = none) →
      connectFourScore ⟨pre ++ List.replicate 4 (some (1 - p)) :: post⟩ p = -1000 := by
  intro p pre post hp hempty
  rw [connectFourScore_eq_sum, List.map_append, List.map_cons, List.sum_append,
    List.sum_cons]
  have hpre : (pre.map (lineContrib p)).sum = 0 := by
    apply List.sum_eq_zero
    intro x hx
    obtain ⟨l, hl, rfl⟩ := List.mem_map.mp hx
    exact lineContrib_of_all_none p l (hempty l (List.mem_append_left _ hl))
  have hpost : (post.map (lineContrib p)).sum = 0 := by
    apply List.sum_eq_zero
    intro x hx
    obtain ⟨l, hl, rfl⟩ := List.mem_map.mp hx
    exact lineContrib_of_all_none p l (hempty l (List.mem_append_right _ hl))
  have hpz : ¬(p = 1 - p) := by omega
  have hw : lineContrib p (List.replicate 4 (some (1 - p))) = -1000 := by
    have hc1 : (List.replicate 4 (some (1 - p))).count (some (1 - p)) = 4 := by
      simp [List.count_replicate]
    have hc2 : (List.replicate 4 (some (1 - p))).count (some p) = 0 := by
      rw [List.count_replicate]
      split_ifs with hh
      · exact absurd (Option.some.inj (eq_of_beq hh)) (by omega)
      · rfl
    simp only [lineContrib, lineContribWith, hc1, hc2]
    norm_num [score_alignment]
  rw [hpre, hpost, hw]
  norm_num

/-- Witness for C3: the opponent of player 0 holds the only occupied
line, an empty line follows, and the score is -1000. -/
theorem opponent_four_in_a_row_witness :
    connectFourScore ⟨[] ++ List.replicate 4 (some 1) :: [[none, none, none, none]]⟩ 0
      = -1000 :=
  opponent_four_in_a_row 0 [] [[none, none, none, none]] (by decide) (by decide)

/-- C4: a line holding at least one piece of each player contributes 0 -
its per-line contribution is 0 (so cell order inside the line is
irrelevant, the contribution only reads the two counts), and appending
such a line to a state leaves the evaluation unchanged. -/
theorem mixed_line_neutrality :
    ∀ (p : ℕ) (ls : List (List (Option ℕ))) (line : List (Option ℕ)),
      p ≤ 1 → some p ∈ line → some (1 - p) ∈ line →
      lineContrib p line = 0 ∧
        connectFourScore ⟨ls ++ [line]⟩ p = connectFourScore ⟨ls⟩ p := by
  intro p ls line hp hmem1 hmem2
  have h1 : 0 < line.count (some p) := List.count_pos_iff.mpr hmem1
  have h2 : 0 < line.count (some (1 - p)) := List.count_pos_iff.mpr hmem2
  have hc : lineContrib p line = 0 := by
    simp only [lineContrib, lineContribWith]
    split_ifs <;> omega
  refine ⟨hc, ?_⟩
  rw [connectFourScore_eq_sum, connectFourScore_eq_sum, List.map_append,
    List.sum_append, List.map_cons, List.map_nil, List.sum_cons, List.sum_nil, hc]
  ring

/-- Witness for C4: a contested line appended to a one-line state leaves
player 0's score unchanged. -/
theorem mixed_line_neutrality_witness :
    lineContrib 0 [some 0, some 1, none, none] = 0 ∧
      connectFourScore ⟨[[some 0, some 0, none, none], [some 0, some 1, none, none]]⟩ 0 =
        connectFourScore ⟨[[some 0, some 0, none, none]]⟩ 0 :=
  mixed_line_neutrality 0 [[some 0, some 0, none, none]] [some 0, some 1, none, none]
    (by decide) (by decide) (by decide)

lemma lineContribWith_congr (f : ℕ → ℕ → ℤ)
    (hf : ∀ c, f c 0 = score_alignment c 0) (p : ℕ) (line : List (Option ℕ)) :
    lineContribWith f p line = lineContrib p line := by
  simp only [lineContrib, lineContribWith]
  split_ifs with h1 h2
  · rw [h1.2, hf]
  · rw [h2.2, hf]
  · rfl

/-- C9: the evaluator only ever consults the per-line scoring function at
opponent count 0: replacing `score_alignment` by any function agreeing
with it on opponent count 0 - in particular one with the 5-point and
1-point partially-blocked branches removed - leaves every evaluation
unchanged, for every state and player. -/
theorem blocked_branches_unreachable :
    ∀ (f : ℕ → ℕ → ℤ), (∀ c, f c 0 = score_alignment c 0) →
      ∀ (s : Connect4State) (p : ℕ),
        connectFourScoreWith f s p = connectFourScore s p := by
  intro f hf s p
  obtain ⟨ls⟩ := s
  rw [connectFourScoreWith_eq_sum, connectFourScore_eq_sum]
  have h : lineContribWith f p = lineContrib p := funext (lineContribWith_congr f hf p)
  rw [h]

/-- `score_alignment` with the two partially-blocked branches (the ones
returning 5 and 1) deleted; it agrees with `score_alignment` whenever the
opponent count is 0. -/
def altAlignment (count opponent_count : ℕ) : ℤ :=
  if count = 4 then 1000
  else if count = 3 ∧ opponent_count = 0 then 50
  else if count = 2 ∧ opponent_count = 0 then 10
  else 0

lemma altAlignment_agrees : ∀ c, altAlignment c 0 = score_alignment c 0 := by
  intro c
  simp only [altAlignment, score_alignment]
  split_ifs <;> first | rfl | omega | tauto

/-- Witness for C9: deleting the partially-blocked branches does not
change the evaluation of a concrete three-in-a-row state. -/
theorem blocked_branches_unreachable_witness :
    connectFourScoreWith altAlignment ⟨[[some 0, some 0, some 0, none]]⟩ 0 =
      connectFourScore ⟨[[some 0, some 0, some 0, none]]⟩ 0 :=
  blocked_branches_unreachable altAlignment altAlignment_agrees
    ⟨[[some 0, some 0, some 0, none]]⟩ 0

lemma sum_map_neg {α : Type} (g : α → ℤ) (xs : List α) :
    (xs.map (fun x => -g x)).sum = -(xs.map g).sum := by
  induction xs with
  | nil => simp
  | cons x xs ih =>
      simp only [List.map_cons, List.sum_cons, ih]
      ring

lemma lineContrib_neg (p : ℕ) (hp : p ≤ 1) (line : List (Option ℕ)) :
    lineContrib p line = -lineContrib (1 - p) line := by
  have h11 : 1 - (1 - p) = p := by omega
  simp only [lineContrib, lineContribWith, h11]
  split_ifs <;> omega

/-- C10: the connect-four evaluation is anti-symmetric in the perspective
player: for each state and player p in {0,1}, evaluating for p gives the
negation of evaluating for 1-p. -/
theorem connect_four_antisymmetry :
    ∀ (s : Connect4State) (p : ℕ), p ≤ 1 →
      connectFourScore s p = -connectFourScore s (1 - p) := by
  intro s p hp
  obtain ⟨ls⟩ := s
  have h : lineContrib p = fun l => -lineContrib (1 - p) l :=
    funext (lineContrib_neg p hp)
  rw [connectFourScore_eq_sum, connectFourScore_eq_sum, h, sum_map_neg]

/-- Witness for C10: a concrete three-in-a-row state for player 0 scores
opposite values from the two perspectives. -/
theorem connect_four_antisymmetry_witness :
    connectFourScore ⟨[[some 0, some 0, some 0, none]]⟩ 0 =
      -connectFourScore ⟨[[some 0, some 0, some 0, none]]⟩ 1 :=
  connect_four_antisymmetry ⟨[[some 0, some 0, some 0, none]]⟩ 0 (by decide)
